import Mathlib

/-!
# Shallow embedding of the IoT gateway service

This file embeds the data-ingestion core of `src/app.py`: the channel registry
(`create_channel`, `get_channels`), the reading store (`insert_data`,
`fetch_data`), the HTTP handlers (`api_create_channel`, `api_get_channels`,
`receive_data_query`, `api_get_data`), the slowapi rate limiter wrapped around
the submission endpoint, the registered route table, and the startup schema
check (`init_db`).  SQLite storage is modelled as in-memory lists of rows; the
`DATETIME DEFAULT CURRENT_TIMESTAMP` wall clock is a `Nat` carried in the
database state and advanced by an explicit `tick` transition.
-/

namespace IotGateway

/-- A row of the `channels` table (src/app.py lines 26-31): `channelId TEXT
PRIMARY KEY, name TEXT NOT NULL, fields TEXT NOT NULL`, where `fields` holds
the comma separated field names. -/
structure Channel where
  channelId : String
  name : String
  fields : String
deriving Repr, DecidableEq

/-- A row of the `sensor_data` table (src/app.py lines 32-40).  The
`timestamp DATETIME DEFAULT CURRENT_TIMESTAMP` column is modelled as a `Nat`
(seconds); the autoincrement `id` is the position in the list. -/
structure Row where
  channelId : String
  field : String
  value : String
  timestamp : Nat
deriving Repr, DecidableEq

/-- The logical database state: the contents of the two tables, in rowid
(insertion) order, plus the wall clock that `CURRENT_TIMESTAMP` reads. -/
structure DB where
  channels : List Channel
  sensor_data : List Row
  clock : Nat
deriving Repr, DecidableEq

/-- Python `','.join(fields)` (src/app.py line 52), at the character level. -/
def joinFields (fields : List String) : String :=
  String.mk (List.intercalate [','] (fields.map String.toList))

/-- Python `s.split(',')` (src/app.py lines 74, 124): split on every comma.
Like Python, `splitFields "" = [""]`. -/
def splitFields (s : String) : List String :=
  (s.toList.splitOn ',').map String.mk

/-- Function `create_channel` (src/app.py lines 44-55): reject a duplicate `channelId`
(the `SELECT channelId FROM channels WHERE channelId=?` / `fetchone` check),
otherwise insert the row with the comma-joined fields string. -/
def create_channel (db : DB) (channelId name : String) (fields : List String) :
    DB × Bool × String :=
  if db.channels.any (fun c => c.channelId == channelId) then
    (db, false, "Channel already exists")
  else
    ({ db with channels := db.channels ++ [⟨channelId, name, joinFields fields⟩] },
     true, "Channel created")

/-- Function `get_channels` (src/app.py lines 57-63):
`SELECT channelId, name, fields FROM channels`. -/
def get_channels (db : DB) : List (String × String × String) :=
  db.channels.map (fun c => (c.channelId, c.name, c.fields))

/-- GET `/api/channels` handler (src/app.py lines 121-124): each channel's
stored fields text is exposed split on commas. -/
def api_get_channels (db : DB) : List (String × String × List String) :=
  (get_channels db).map (fun r => (r.1, r.2.1, splitFields r.2.2))

/-- The error message built at src/app.py line 78. -/
def fieldNotAllowedMsg (field channelId : String) : String :=
  "Field " ++ field ++ " not allowed in channel " ++ channelId

/-- Function `insert_data` (src/app.py lines 65-86): look up the channel (fail when
absent), check every item's field against the channel's comma-split allowed
fields aborting on the first disallowed one, else append one `sensor_data`
row per item stamped with the current clock (`DEFAULT CURRENT_TIMESTAMP`).
The items are bare `(field, value)` pairs: no client-supplied timestamp
exists in the interface. -/
def insert_data (db : DB) (channelId : String) (data_list : List (String × String)) :
    DB × Bool × String :=
  match db.channels.find? (fun c => c.channelId == channelId) with
  | none => (db, false, "Channel does not exist")
  | some row =>
    let allowed_fields := splitFields row.fields
    match data_list.find? (fun d => !(allowed_fields.contains d.1)) with
    | some d => (db, false, fieldNotAllowedMsg d.1 channelId)
    | none =>
      ({ db with sensor_data :=
          db.sensor_data ++ data_list.map (fun d => ⟨channelId, d.1, d.2, db.clock⟩) },
       true, "Data inserted")

/-- The row order of `ORDER BY timestamp ASC` (src/app.py lines 91, 94). -/
def tsLe (a b : Row) : Prop :=
  a.timestamp ≤ b.timestamp

instance : DecidableRel tsLe :=
  fun a b => inferInstanceAs (Decidable (a.timestamp ≤ b.timestamp))

instance : IsTotal Row tsLe :=
  ⟨fun a b => Nat.le_total a.timestamp b.timestamp⟩

instance : IsTrans Row tsLe :=
  ⟨fun _ _ _ h h2 => Nat.le_trans h h2⟩

/-- Function `fetch_data` (src/app.py lines 88-96): select the rows (filtered by
channel when the argument is truthy — Python `if channelId:` treats `None`
and the empty string alike) and return them ordered by ascending timestamp. -/
def fetch_data (db : DB) (channelId : Option String) : List Row :=
  let rows :=
    match channelId with
    | some cid =>
      if cid == "" then db.sensor_data
      else db.sensor_data.filter (fun r => r.channelId == cid)
    | none => db.sensor_data
  List.insertionSort tsLe rows

/-- Responses produced by the API handlers: the success JSON bodies of
src/app.py lines 118 and 157, or a `JSONResponse` error with its HTTP
status code. -/
inductive Resp
  | ok (message : String)
  | okCount (message : String) (count : Nat)
  | error (status : Nat) (message : String)
deriving Repr, DecidableEq

/-- JSON values that the `fields` member of the create-channel payload can
take in this model. -/
inductive JsonVal
  | null
  | str (s : String)
  | num (n : Int)
  | boolean (b : Bool)
  | arr (elems : List JsonVal)

/-- Python truthiness of `payload.get(...)` for a string-or-absent member:
absent (`None`) and the empty string are falsy (src/app.py line 113). -/
def truthyStrOpt : Option String → Bool
  | none => false
  | some s => !(s == "")

/-- Python truthiness of a JSON value, for `not fields` (src/app.py line 113). -/
def jsonTruthy : JsonVal → Bool
  | .null => false
  | .str s => !(s == "")
  | .num n => !(n == 0)
  | .boolean b => b
  | .arr xs => !xs.isEmpty

/-- Python `isinstance(fields, list)` (src/app.py line 113). -/
def jsonIsList : JsonVal → Bool
  | .arr _ => true
  | _ => false

/-- The string elements of a list of JSON values; `none` models the
`TypeError` that `','.join` raises on a non-string element. -/
def strElems : List JsonVal → Option (List String)
  | [] => some []
  | .str s :: rest => (strElems rest).map (fun l => s :: l)
  | _ :: _ => none

/-- The elements of a JSON array when every element is a string; `none` models
the `TypeError` that `','.join` raises on a non-string element. -/
def asStrList : JsonVal → Option (List String)
  | .arr xs => strElems xs
  | _ => none

/-- POST `/api/channel` handler (src/app.py lines 107-118).  `channelId` and
`name` model string-or-absent JSON members; a non-string element inside a
`fields` list would raise `TypeError` in `','.join`, surfaced by the framework
as a 500 response (that branch is exercised by no theorem below). -/
def api_create_channel (db : DB) (channelId name : Option String) (fields : JsonVal) :
    DB × Resp :=
  if !(truthyStrOpt channelId) || !(truthyStrOpt name) ||
      !(jsonTruthy fields) || !(jsonIsList fields) then
    (db, .error 400 "Missing or invalid channelId, name, or fields (must be a list)")
  else
    match channelId, name, asStrList fields with
    | some cid, some nm, some fs =>
      let r := create_channel db cid nm fs
      if r.2.1 then (r.1, .ok r.2.2) else (r.1, .error 400 r.2.2)
    | _, _, _ => (db, .error 500 "Internal Server Error")

/-- The data-list assembly of src/app.py lines 146-151: pair 1 is appended when
both of its strings are truthy (non-empty), then the loop over pairs 2-5
appends each pair whose field and value are both present (`is not None`). -/
def assemble_data (field1 value1 : String)
    (field2 value2 field3 value3 field4 value4 field5 value5 : Option String) :
    List (String × String) :=
  let l0 : List (String × String) :=
    if !(field1 == "") && !(value1 == "") then [(field1, value1)] else []
  [(field2, value2), (field3, value3), (field4, value4), (field5, value5)].foldl
    (fun acc fv =>
      match fv with
      | (some f, some v) => acc ++ [(f, v)]
      | _ => acc) l0

/-- FastAPI rejects a request that omits a required query parameter
(`Query(...)`) with a 422 Unprocessable Entity validation error before the
handler body runs. -/
def missingParam422 : Resp :=
  .error 422 "field required"

/-- GET `/api/data` handler body (src/app.py lines 129-157).  `channelId`,
`field1` and `value1` are required query parameters (`Query(...)`); the
remaining eight default to `None`. -/
def receive_data_query (db : DB)
    (channelId field1 value1 field2 value2 field3 value3 field4 value4
      field5 value5 : Option String) : DB × Resp :=
  match channelId, field1, value1 with
  | some cid, some f1, some v1 =>
    let data_list :=
      assemble_data f1 v1 field2 value2 field3 value3 field4 value4 field5 value5
    if cid == "" || data_list.isEmpty then
      (db, .error 400 "Missing channelId or data")
    else
      let r := insert_data db cid data_list
      if r.2.1 then (r.1, .okCount r.2.2 data_list.length)
      else (r.1, .error 400 r.2.2)
  | _, _, _ => (db, missingParam422)

/-- GET `/api/data/{channelId}` handler (src/app.py lines 160-163); the
Starlette path parameter always matches a non-empty segment. -/
def api_get_data (db : DB) (channelId : String) : List Row :=
  fetch_data db (some channelId)

/-- State of the slowapi rate limiter configured at src/app.py lines 101, 130
(`Limiter(key_func=get_remote_address)` with `@limiter.limit("50/minute")`):
one recorded hit per processed request, bucketed by remote address into fixed
one-minute windows. -/
structure LimiterState where
  hits : List (String × Nat)
deriving Repr, DecidableEq

/-- Hits recorded for a client in the one-minute window `w`. -/
def hitCount (ls : LimiterState) (client : String) (w : Nat) : Nat :=
  (ls.hits.filter (fun h => h.1 == client && h.2 == w)).length

/-- The 429 response produced when the limit is exceeded. -/
def rateLimit429 : Resp :=
  .error 429 "Rate limit exceeded: 50 per 1 minute"

/-- One request to GET `/api/data` as seen by the rate-limited endpoint:
arrival time (seconds), remote client address, and the query parameters. -/
structure QueryReq where
  time : Nat
  client : String
  channelId : Option String
  field1 : Option String
  value1 : Option String
  field2 : Option String
  value2 : Option String
  field3 : Option String
  value3 : Option String
  field4 : Option String
  value4 : Option String
  field5 : Option String
  value5 : Option String
deriving Repr, DecidableEq

/-- The rate-limited GET `/api/data` endpoint: at most 50 requests per client
per one-minute window are admitted; an admitted request records a hit and runs
the handler, a rejected one returns 429 without touching the database. -/
def api_data_request (db : DB) (ls : LimiterState) (req : QueryReq) :
    DB × LimiterState × Resp :=
  let w := req.time / 60
  if 50 ≤ hitCount ls req.client w then
    (db, ls, rateLimit429)
  else
    let r := receive_data_query db req.channelId req.field1 req.value1 req.field2
      req.value2 req.field3 req.value3 req.field4 req.value4 req.field5 req.value5
    (r.1, ⟨(req.client, w) :: ls.hits⟩, r.2)

/-- Process a list of requests in arrival order. -/
def runRequests (db : DB) (ls : LimiterState) : List QueryReq → DB × LimiterState
  | [] => (db, ls)
  | req :: rest =>
    let r := api_data_request db ls req
    runRequests r.1 r.2.1 rest

/-- HTTP method of a registered route. -/
inductive Method
  | GET
  | POST
deriving Repr, DecidableEq

/-- The route table of the FastAPI app, read off the decorators in src/app.py:
POST `/api/channel` (line 107), GET `/api/channels` (line 121), GET `/api/data`
(line 129), GET `/api/data/{channelId}` (line 160).  No other route is
registered anywhere in the file. -/
def registeredRoutes : List (Method × String) :=
  [(Method.POST, "/api/channel"),
   (Method.GET, "/api/channels"),
   (Method.GET, "/api/data"),
   (Method.GET, "/api/data/{channelId}")]

/-- A raw SQLite table as `init_db` sees it: declared column names and the
stored rows (one cell per column). -/
structure RawTable where
  columns : List String
  rows : List (List String)
deriving Repr, DecidableEq

/-- The database file: each of the two tables either absent or present. -/
structure Disk where
  channels : Option RawTable
  sensor_data : Option RawTable
deriving Repr, DecidableEq

/-- The column names `PRAGMA table_info(sensor_data)` reports (src/app.py
lines 21-22): empty when the table does not exist. -/
def table_info : Option RawTable → List String
  | none => []
  | some t => t.columns

/-- The schema of `CREATE TABLE IF NOT EXISTS channels` (src/app.py 25-31). -/
def channelsSchema : RawTable :=
  ⟨["channelId", "name", "fields"], []⟩

/-- The schema of `CREATE TABLE IF NOT EXISTS sensor_data` (src/app.py 32-40). -/
def sensorDataSchema : RawTable :=
  ⟨["id", "channelId", "field", "value", "timestamp"], []⟩

/-- Semantics of `CREATE TABLE IF NOT EXISTS`: an existing table is left untouched. -/
def createIfNotExists (t : Option RawTable) (schema : RawTable) : Option RawTable :=
  match t with
  | none => some schema
  | some t0 => some t0

/-- Startup `init_db` (src/app.py lines 17-42): drop `sensor_data` when its column
list lacks `channelId` (`DROP TABLE IF EXISTS sensor_data`), then create both
tables if absent. -/
def init_db (d : Disk) : Disk :=
  let sd :=
    if (table_info d.sensor_data).contains ("channelId") then d.sensor_data else none
  ⟨createIfNotExists d.channels channelsSchema, createIfNotExists sd sensorDataSchema⟩

/-- The primitive mutations of the logical database: the wall clock advancing,
and the two write operations.  Every API handler writes to the database only
through `create_channel` and `insert_data`. -/
inductive Step : DB → DB → Prop
  | tick (db : DB) (d : Nat) : Step db { db with clock := db.clock + d }
  | create (db : DB) (cid nm : String) (fs : List String) :
      Step db (create_channel db cid nm fs).1
  | insert (db : DB) (cid : String) (data : List (String × String)) :
      Step db (insert_data db cid data).1

/-- Database states reachable from a freshly initialized empty database. -/
inductive Reachable : DB → Prop
  | base (t : Nat) : Reachable ⟨[], [], t⟩
  | step {db db2 : DB} : Reachable db → Step db db2 → Reachable db2

/-- The invariant maintained by every reachable state: stored timestamps are
non-decreasing in insertion order, never ahead of the clock, and every stored
row references a registered channel. -/
def Wf (db : DB) : Prop :=
  db.sensor_data.Chain' tsLe ∧
  (∀ r ∈ db.sensor_data, r.timestamp ≤ db.clock) ∧
  (∀ r ∈ db.sensor_data, ∃ c ∈ db.channels, c.channelId = r.channelId)

/-- Specification-side reading of one optional slot of the flattened form:
the pair is kept exactly when both the field and the value are present. -/
def bothSome : Option String × Option String → Option (String × String)
  | (some f, some v) => some (f, v)
  | _ => none

/-! ## Helper lemmas -/

theorem mk_toList (s : String) : String.mk s.toList = s :=
  rfl

theorem splitFields_joinFields (fields : List String) (hne : fields ≠ [])
    (hcf : ∀ f ∈ fields, ',' ∉ f.toList) :
    splitFields (joinFields fields) = fields := by
  unfold splitFields joinFields
  rw [show (String.mk (List.intercalate [','] (fields.map String.toList))).toList
      = List.intercalate [','] (fields.map String.toList) from rfl]
  rw [List.splitOn_intercalate (fields.map String.toList) ',' ?hx ?hls]
  case hx =>
    intro l hl
    obtain ⟨f, hf, rfl⟩ := List.mem_map.mp hl
    exact hcf f hf
  case hls =>
    simpa using hne
  rw [List.map_map]
  have h : (String.mk ∘ String.toList) = id := funext mk_toList
  rw [h, List.map_id]

theorem asStrList_arr_map_str (fs : List String) :
    asStrList (JsonVal.arr (fs.map JsonVal.str)) = some fs := by
  induction fs with
  | nil => rfl
  | cons f rest ih =>
    simp only [asStrList, List.map_cons, strElems] at ih ⊢
    simp [ih]

/-! ## Claim theorems -/

/-- C1: the spec requires a structured `POST /api/data` submission endpoint that
delegates to the same `insert_data` logic as the flattened form; the app
registers only the flattened `GET /api/data` route, and no POST route for
`/api/data` exists, so a structured submission cannot reach `insert_data`. -/
theorem C1_no_structured_post_endpoint :
    (Method.GET, "/api/data") ∈ registeredRoutes ∧
    (Method.POST, "/api/data") ∉ registeredRoutes := by
  decide

/-- C4 counterexample: a field name containing a comma is accepted by channel
creation, but listing the channel returns it split apart, so the round trip is
not exact for every accepted field name. -/
theorem C4_counterexample_comma_field :
    (create_channel ⟨[], [], 0⟩ ("c1") ("n") ["a,b"]).2.1 = true ∧
    api_get_channels (create_channel ⟨[], [], 0⟩ ("c1") ("n") ["a,b"]).1 =
      [(("c1"), ("n"), [("a"), ("b")])] ∧
    [("a"), ("b")] ≠ [("a,b")] := by
  decide

/-- C4 (amended): for every fields sequence of comma-free names accepted by
channel creation under a fresh `channelId`, creating the channel and then
listing channels yields exactly the original ordered fields list. -/
theorem C4_roundtrip_comma_free (db : DB) (cid nm : String) (fields : List String)
    (hne : fields ≠ []) (hcf : ∀ f ∈ fields, ',' ∉ f.toList)
    (hfresh : ∀ c ∈ db.channels, c.channelId ≠ cid) :
    (create_channel db cid nm fields).2 = (true, "Channel created") ∧
    (cid, nm, fields) ∈ api_get_channels (create_channel db cid nm fields).1 := by
  have hany : db.channels.any (fun c => c.channelId == cid) = false := by
    rw [List.any_eq_false]
    intro c hc
    simpa using hfresh c hc
  constructor
  · simp [create_channel, hany]
  · simp only [create_channel, hany, Bool.false_eq_true, if_false,
      api_get_channels, get_channels, List.map_map]
    refine List.mem_map.mpr ⟨⟨cid, nm, joinFields fields⟩, ?_, ?_⟩
    · exact List.mem_append_right _ (List.mem_singleton.mpr rfl)
    · simp [splitFields_joinFields fields hne hcf]

/-- Witness for C4 (amended) at a concrete input. -/
theorem C4_roundtrip_witness :
    (create_channel ⟨[], [], 0⟩ ("ch1") ("Room") ["temperature", "humidity"]).2 =
      (true, "Channel created") ∧
    (("ch1"), ("Room"), ["temperature", "humidity"]) ∈
      api_get_channels
        (create_channel ⟨[], [], 0⟩ ("ch1") ("Room") ["temperature", "humidity"]).1 :=
  C4_roundtrip_comma_free ⟨[], [], 0⟩ ("ch1") ("Room") ["temperature", "humidity"]
    (by decide) (by decide) (by decide)

/-- C5: creating a channel whose `channelId` is already registered fails with
the ConflictError message, is mapped to HTTP 400 by the handler, and leaves
the database (in particular the channels table) unchanged, whatever the new
`name` and `fields` are. -/
theorem C5_duplicate_channel_conflict (db : DB) (cid nm : String) (fs : List String)
    (c0 : Channel) (hc : c0 ∈ db.channels) (hid : c0.channelId = cid)
    (hcid : cid ≠ "") (hnm : nm ≠ "") (hfs : fs ≠ []) :
    create_channel db cid nm fs = (db, false, "Channel already exists") ∧
    api_create_channel db (some cid) (some nm) (JsonVal.arr (fs.map JsonVal.str)) =
      (db, Resp.error 400 ("Channel already exists")) := by
  have hany : db.channels.any (fun c => c.channelId == cid) = true :=
    List.any_eq_true.mpr ⟨c0, hc, by simp [hid]⟩
  have h1 : create_channel db cid nm fs = (db, false, "Channel already exists") := by
    simp [create_channel, hany]
  refine ⟨h1, ?_⟩
  simp [api_create_channel, truthyStrOpt, jsonTruthy, jsonIsList,
    asStrList_arr_map_str, hcid, hnm, hfs, h1, List.map_eq_nil_iff]

/-- Witness for C5 at a concrete input. -/
theorem C5_duplicate_channel_witness :
    create_channel ⟨[⟨"c1", "Room", "t,h"⟩], [], 0⟩ ("c1") ("Other") ["x"] =
      (⟨[⟨"c1", "Room", "t,h"⟩], [], 0⟩, false, "Channel already exists") ∧
    api_create_channel ⟨[⟨"c1", "Room", "t,h"⟩], [], 0⟩ (some ("c1")) (some ("Other"))
        (JsonVal.arr (["x"].map JsonVal.str)) =
      (⟨[⟨"c1", "Room", "t,h"⟩], [], 0⟩, Resp.error 400 ("Channel already exists")) :=
  C5_duplicate_channel_conflict ⟨[⟨"c1", "Room", "t,h"⟩], [], 0⟩ ("c1") ("Other") ["x"]
    ⟨("c1"), ("Room"), ("t,h")⟩ (by decide) rfl (by decide) (by decide) (by decide)

/-- C8 counterexample: the handler accepts a non-empty fields list containing
an empty-string field name, so the fields accepted at creation are not always
non-empty strings. -/
theorem C8_counterexample_empty_field_name :
    api_create_channel ⟨[], [], 0⟩ (some ("c")) (some ("n"))
        (JsonVal.arr [JsonVal.str ("")]) =
      (⟨[⟨"c", "n", ""⟩], [], 0⟩, Resp.ok ("Channel created")) := by
  decide

/-- C8 (amended): `POST /api/channel` rejects with HTTP 400 every request whose
`channelId` or `name` is empty or missing, or whose `fields` is not a non-empty
list; element-level validation of the field names is not performed. -/
theorem C8_create_channel_validation (db : DB) (channelId name : Option String)
    (fields : JsonVal)
    (h : (channelId = none ∨ channelId = some ("")) ∨
         (name = none ∨ name = some ("")) ∨
         (∀ xs, fields ≠ JsonVal.arr xs) ∨ fields = JsonVal.arr []) :
    api_create_channel db channelId name fields =
      (db, Resp.error 400
        ("Missing or invalid channelId, name, or fields (must be a list)")) := by
  have hgate : (!(truthyStrOpt channelId) || !(truthyStrOpt name) ||
      !(jsonTruthy fields) || !(jsonIsList fields)) = true := by
    rcases h with (h | h) | (h | h) | h | h
    · subst h; simp [truthyStrOpt]
    · subst h; simp [truthyStrOpt]
    · subst h; simp [truthyStrOpt]
    · subst h; simp [truthyStrOpt]
    · have hl : jsonIsList fields = false := by
        cases fields with
        | arr xs => exact absurd rfl (h xs)
        | null => rfl
        | str s => rfl
        | num n => rfl
        | boolean b => rfl
      simp [hl]
    · subst h; simp [jsonTruthy]
  simp [api_create_channel, hgate]

/-- Witness for C8 (amended) at a concrete input. -/
theorem C8_validation_witness :
    api_create_channel ⟨[], [], 0⟩ none (some ("n")) (JsonVal.arr [JsonVal.str ("t")]) =
      (⟨[], [], 0⟩, Resp.error 400
        ("Missing or invalid channelId, name, or fields (must be a list)")) :=
  C8_create_channel_validation ⟨[], [], 0⟩ none (some ("n"))
    (JsonVal.arr [JsonVal.str ("t")]) (Or.inl (Or.inl rfl))

/-- C10: on startup, `init_db` drops the whole `sensor_data` table (discarding
its rows and recreating the empty schema) exactly when an existing table lacks
a `channelId` column; when the column is present all rows are preserved, and
the `channels` table is never dropped. -/
theorem C10_init_db_legacy_drop (d : Disk) :
    (∀ t, d.sensor_data = some t → t.columns.contains ("channelId") = false →
      (init_db d).sensor_data = some sensorDataSchema) ∧
    (∀ t, d.sensor_data = some t → t.columns.contains ("channelId") = true →
      (init_db d).sensor_data = some t) ∧
    (∀ tc, d.channels = some tc → (init_db d).channels = some tc) := by
  refine ⟨?_, ?_, ?_⟩
  · intro t ht hcol
    have hmem : ("channelId") ∉ t.columns := by simpa using hcol
    simp [init_db, table_info, ht, hmem, createIfNotExists]
  · intro t ht hcol
    have hmem : ("channelId") ∈ t.columns := by simpa using hcol
    simp [init_db, table_info, ht, hmem, createIfNotExists]
  · intro tc htc
    simp [init_db, htc, createIfNotExists]

/-- Witness for C10: a legacy `sensor_data` table without a `channelId` column
is dropped and recreated empty; a current one keeps its rows; `channels` is
kept in both cases. -/
theorem C10_init_db_witness :
    (init_db ⟨some channelsSchema,
        some ⟨["id", "field", "value", "timestamp"], [["1", "t", "22", "0"]]⟩⟩).sensor_data =
      some sensorDataSchema ∧
    (init_db ⟨some ⟨["channelId", "name", "fields"], [["c1", "n", "t"]]⟩,
        some ⟨["id", "channelId", "field", "value", "timestamp"],
          [["1", "c1", "t", "22", "0"]]⟩⟩).sensor_data =
      some ⟨["id", "channelId", "field", "value", "timestamp"],
        [["1", "c1", "t", "22", "0"]]⟩ ∧
    (init_db ⟨some ⟨["channelId", "name", "fields"], [["c1", "n", "t"]]⟩,
        some ⟨["id", "channelId", "field", "value", "timestamp"],
          [["1", "c1", "t", "22", "0"]]⟩⟩).channels =
      some ⟨["channelId", "name", "fields"], [["c1", "n", "t"]]⟩ :=
  ⟨(C10_init_db_legacy_drop _).1 _ rfl (by decide),
   (C10_init_db_legacy_drop _).2.1 _ rfl (by decide),
   (C10_init_db_legacy_drop _).2.2 _ rfl⟩

/-- C2: when any item of the batch names a field outside the channel's
declared field set, `insert_data` fails with the FieldNotAllowed message
naming an offending field and the channel, the database is unchanged, and
in particular the `sensor_data` row count is unchanged. -/
theorem C2_field_not_allowed_aborts_batch (db : DB) (cid : String)
    (data : List (String × String)) (ch : Channel)
    (hch : db.channels.find? (fun c => c.channelId == cid) = some ch)
    (hbad : ∃ d ∈ data, d.1 ∉ splitFields ch.fields) :
    ∃ f, f ∉ splitFields ch.fields ∧ (∃ v, (f, v) ∈ data) ∧
      insert_data db cid data = (db, false, fieldNotAllowedMsg f cid) ∧
      (insert_data db cid data).1.sensor_data.length = db.sensor_data.length := by
  have hsome : (data.find? (fun d => !((splitFields ch.fields).contains d.1))).isSome := by
    rw [List.find?_isSome]
    obtain ⟨d, hd, hdnot⟩ := hbad
    exact ⟨d, hd, by simpa using hdnot⟩
  obtain ⟨d0, hfind⟩ := Option.isSome_iff_exists.mp hsome
  have hp := List.find?_some hfind
  have hmem : d0 ∈ data := List.mem_of_find?_eq_some hfind
  refine ⟨d0.1, ?_, ⟨d0.2, by simpa using hmem⟩, ?_, ?_⟩
  · simpa using hp
  · simp only [insert_data, hch, hfind]
  · simp only [insert_data, hch, hfind]

/-- Witness for C2 at a concrete input. -/
theorem C2_field_not_allowed_witness :
    ∃ f, f ∉ splitFields (("t,h") : String) ∧
      (∃ v, (f, v) ∈ [(("t"), ("22")), (("p"), ("1"))]) ∧
      insert_data ⟨[⟨"c1", "n", "t,h"⟩], [], 0⟩ ("c1") [(("t"), ("22")), (("p"), ("1"))] =
        (⟨[⟨"c1", "n", "t,h"⟩], [], 0⟩, false, fieldNotAllowedMsg f ("c1")) ∧
      (insert_data ⟨[⟨"c1", "n", "t,h"⟩], [], 0⟩ ("c1")
        [(("t"), ("22")), (("p"), ("1"))]).1.sensor_data.length =
        (⟨[⟨"c1", "n", "t,h"⟩], [], 0⟩ : DB).sensor_data.length :=
  C2_field_not_allowed_aborts_batch ⟨[⟨"c1", "n", "t,h"⟩], [], 0⟩ ("c1")
    [(("t"), ("22")), (("p"), ("1"))] ⟨("c1"), ("n"), ("t,h")⟩ (by decide) (by decide)

/-- C9: the flattened GET /api/data form: a request missing the mandatory
first pair is rejected with a 4xx validation error before the handler runs,
and the assembled data list is the first pair followed by exactly those of
pairs 2-5 whose field and value are both present. -/
theorem C9_flattened_assembly :
    (∀ (db : DB) (ch f1 v1 f2 v2 f3 v3 f4 v4 f5 v5 : Option String),
      f1 = none ∨ v1 = none →
      receive_data_query db ch f1 v1 f2 v2 f3 v3 f4 v4 f5 v5 = (db, missingParam422)) ∧
    (∀ (a1 b1 : String) (f2 v2 f3 v3 f4 v4 f5 v5 : Option String),
      a1 ≠ "" → b1 ≠ "" →
      assemble_data a1 b1 f2 v2 f3 v3 f4 v4 f5 v5 =
        (a1, b1) :: [(f2, v2), (f3, v3), (f4, v4), (f5, v5)].filterMap bothSome) := by
  constructor
  · intro db ch f1 v1 f2 v2 f3 v3 f4 v4 f5 v5 h
    rcases h with h | h
    · subst h
      cases ch <;> cases v1 <;> rfl
    · subst h
      cases ch <;> cases f1 <;> rfl
  · intro a1 b1 f2 v2 f3 v3 f4 v4 f5 v5 h1 h2
    have e1 : (a1 == "") = false := by simpa using h1
    have e2 : (b1 == "") = false := by simpa using h2
    cases f2 <;> cases v2 <;> cases f3 <;> cases v3 <;> cases f4 <;> cases v4 <;>
      cases f5 <;> cases v5 <;> simp [assemble_data, bothSome, e1, e2]

/-- Witness for C9 at concrete inputs. -/
theorem C9_flattened_witness :
    receive_data_query ⟨[], [], 0⟩ (some ("c1")) none (some ("22")) none none none
        none none none none none = (⟨[], [], 0⟩, missingParam422) ∧
    assemble_data ("t") ("22") (some ("h")) (some ("40")) (some ("p")) none none
        (some ("7")) none none =
      (("t"), ("22")) :: [(some ("h"), some ("40")), (some ("p"), none),
        (none, some ("7")), (none, none)].filterMap bothSome :=
  ⟨C9_flattened_assembly.1 ⟨[], [], 0⟩ (some ("c1")) none (some ("22")) none none
      none none none none none none (Or.inl rfl),
   C9_flattened_assembly.2 ("t") ("22") (some ("h")) (some ("40")) (some ("p")) none
      none (some ("7")) none none (by decide) (by decide)⟩

/-- An admitted request pushes one hit for its client and window. -/
theorem api_data_request_admitted (db : DB) (ls : LimiterState) (req : QueryReq)
    (h : hitCount ls req.client (req.time / 60) < 50) :
    (api_data_request db ls req).2.1 = ⟨(req.client, req.time / 60) :: ls.hits⟩ := by
  simp [api_data_request, Nat.not_le.mpr h]

/-- Pushing a hit for the same client and window raises its count by one. -/
theorem hitCount_cons_same (ls : LimiterState) (c : String) (w : Nat) :
    hitCount ⟨(c, w) :: ls.hits⟩ c w = hitCount ls c w + 1 := by
  simp [hitCount]

/-- While the window budget is not exhausted, every request from the same
client and window is admitted and counted. -/
theorem hitCount_runRequests (c : String) (w : Nat) :
    ∀ (reqs : List QueryReq) (db : DB) (ls : LimiterState),
      (∀ r ∈ reqs, r.client = c ∧ r.time / 60 = w) →
      hitCount ls c w + reqs.length ≤ 50 →
      hitCount (runRequests db ls reqs).2 c w = hitCount ls c w + reqs.length := by
  intro reqs
  induction reqs with
  | nil =>
    intro db ls _ _
    simp [runRequests]
  | cons req rest ih =>
    intro db ls hsame hle
    obtain ⟨hcli, htime⟩ := hsame req (List.mem_cons_self _ _)
    simp only [List.length_cons] at hle
    have hlt : hitCount ls req.client (req.time / 60) < 50 := by
      rw [hcli, htime]; omega
    have hls2 : (api_data_request db ls req).2.1 = ⟨(c, w) :: ls.hits⟩ := by
      rw [api_data_request_admitted db ls req hlt, hcli, htime]
    simp only [runRequests]
    rw [hls2, ih _ ⟨(c, w) :: ls.hits⟩ (fun r hr => hsame r (List.mem_cons_of_mem _ hr))
      (by rw [hitCount_cons_same]; omega), hitCount_cons_same]
    simp only [List.length_cons]
    omega

/-- C3: starting from a limiter state with no hits for a client's current
one-minute window, after 50 requests from that client inside the window, a
51st request in the same window is rejected with the 429 rate-limit response
(distinct from every 400-class validation error) and leaves both the database
(no row inserted) and the limiter state unchanged. -/
theorem C3_rate_limit_51st_rejected (db : DB) (ls : LimiterState) (c : String) (w : Nat)
    (reqs : List QueryReq) (req51 : QueryReq)
    (h0 : hitCount ls c w = 0) (hlen : reqs.length = 50)
    (hsame : ∀ r ∈ reqs, r.client = c ∧ r.time / 60 = w)
    (hc51 : req51.client = c) (ht51 : req51.time / 60 = w) :
    api_data_request (runRequests db ls reqs).1 (runRequests db ls reqs).2 req51 =
      ((runRequests db ls reqs).1, (runRequests db ls reqs).2, rateLimit429) := by
  have hcount : hitCount (runRequests db ls reqs).2 c w = 50 := by
    rw [hitCount_runRequests c w reqs db ls hsame (by rw [h0, hlen]), h0, hlen]
  simp [api_data_request, hc51, ht51, hcount]

/-- Witness for C3: 50 identical requests from one address exhaust the window
and the 51st is rejected. -/
theorem C3_rate_limit_witness :
    api_data_request
        (runRequests ⟨[], [], 0⟩ ⟨[]⟩ (List.replicate 50
          (⟨0, ("1.2.3.4"), some ("c1"), some ("t"), some ("22"),
            none, none, none, none, none, none, none, none⟩ : QueryReq))).1
        (runRequests ⟨[], [], 0⟩ ⟨[]⟩ (List.replicate 50
          (⟨0, ("1.2.3.4"), some ("c1"), some ("t"), some ("22"),
            none, none, none, none, none, none, none, none⟩ : QueryReq))).2
        ⟨0, ("1.2.3.4"), some ("c1"), some ("t"), some ("22"),
          none, none, none, none, none, none, none, none⟩ =
      ((runRequests ⟨[], [], 0⟩ ⟨[]⟩ (List.replicate 50
          (⟨0, ("1.2.3.4"), some ("c1"), some ("t"), some ("22"),
            none, none, none, none, none, none, none, none⟩ : QueryReq))).1,
       (runRequests ⟨[], [], 0⟩ ⟨[]⟩ (List.replicate 50
          (⟨0, ("1.2.3.4"), some ("c1"), some ("t"), some ("22"),
            none, none, none, none, none, none, none, none⟩ : QueryReq))).2,
       rateLimit429) :=
  C3_rate_limit_51st_rejected ⟨[], [], 0⟩ ⟨[]⟩ ("1.2.3.4") 0 _ _ rfl
    (by simp) (fun r hr => by rw [List.eq_of_mem_replicate hr]; exact ⟨rfl, rfl⟩)
    rfl rfl

/-- Rows appended by one batch all carry the same server-assigned stamp, so
they are chained. -/
theorem chain'_stamp (cid : String) (ts : Nat) (data : List (String × String)) :
    List.Chain' tsLe (data.map (fun d => (⟨cid, d.1, d.2, ts⟩ : Row))) := by
  induction data with
  | nil => simp
  | cons a rest ih =>
    cases rest with
    | nil => simp
    | cons b r2 =>
      simp only [List.map_cons, List.chain'_cons] at ih ⊢
      exact ⟨Nat.le_refl ts, ih⟩

/-- Every step of the system preserves the storage invariant. -/
theorem wf_step {db db2 : DB} (hwf : Wf db) (hs : Step db db2) : Wf db2 := by
  obtain ⟨hchain, hclock, href⟩ := hwf
  cases hs with
  | tick d =>
    exact ⟨hchain, fun r hr => Nat.le_trans (hclock r hr) (Nat.le_add_right _ _), href⟩
  | create cid nm fs =>
    by_cases hdup : db.channels.any (fun c => c.channelId == cid) = true
    · simp only [create_channel, hdup, if_true]
      exact ⟨hchain, hclock, href⟩
    · have hdup2 : db.channels.any (fun c => c.channelId == cid) = false := by
        simpa using hdup
      simp only [create_channel, hdup2, Bool.false_eq_true, if_false]
      refine ⟨hchain, hclock, ?_⟩
      intro r hr
      obtain ⟨c, hc, hcc⟩ := href r hr
      exact ⟨c, List.mem_append_left _ hc, hcc⟩
  | insert cid data =>
    cases hfind : db.channels.find? (fun c => c.channelId == cid) with
    | none =>
      have heq : insert_data db cid data = (db, false, "Channel does not exist") := by
        simp only [insert_data, hfind]
      rw [heq]
      exact ⟨hchain, hclock, href⟩
    | some row =>
      cases hbad : data.find? (fun d => !((splitFields row.fields).contains d.1)) with
      | some d =>
        have heq : insert_data db cid data = (db, false, fieldNotAllowedMsg d.1 cid) := by
          simp only [insert_data, hfind, hbad]
        rw [heq]
        exact ⟨hchain, hclock, href⟩
      | none =>
        have heq : (insert_data db cid data).1 = DB.mk db.channels
            (db.sensor_data ++ data.map (fun d => Row.mk cid d.1 d.2 db.clock))
            db.clock := by
          simp only [insert_data, hfind, hbad]
        rw [heq]
        refine ⟨?_, ?_, ?_⟩
        · refine List.Chain'.append hchain (chain'_stamp cid db.clock data) ?_
          intro x hx y hy
          have hxm : x ∈ db.sensor_data := List.mem_of_getLast?_eq_some hx
          have hym : y ∈ data.map (fun d => (⟨cid, d.1, d.2, db.clock⟩ : Row)) :=
            List.mem_of_mem_head? hy
          obtain ⟨d2, -, rfl⟩ := List.mem_map.mp hym
          exact Nat.le_trans (hclock x hxm) (Nat.le_refl _)
        · intro r hr
          rcases List.mem_append.mp hr with hold | hnew
          · exact hclock r hold
          · obtain ⟨d2, -, rfl⟩ := List.mem_map.mp hnew
            exact Nat.le_refl _
        · intro r hr
          rcases List.mem_append.mp hr with hold | hnew
          · exact href r hold
          · obtain ⟨d2, -, rfl⟩ := List.mem_map.mp hnew
            have hrowid : row.channelId = cid := by
              have hb := List.find?_some hfind
              simpa using hb
            exact ⟨row, List.mem_of_find?_eq_some hfind, hrowid⟩

/-- Reachable states satisfy the storage invariant. -/
theorem reachable_wf {db : DB} (h : Reachable db) : Wf db := by
  induction h with
  | base t =>
    exact ⟨List.chain'_nil, by simp, by simp⟩
  | step hr hs ih =>
    exact wf_step ih hs

/-- C6: `fetch_data` returns readings in ascending (non-decreasing) timestamp
order; in every reachable state, stored timestamps are non-decreasing in
insertion order and never exceed the store clock that assigned them (the
`insert_data` interface accepts no client-supplied timestamp). -/
theorem C6_timestamps_ordered (db : DB) (hreach : Reachable db) (cid : Option String) :
    List.Sorted tsLe (fetch_data db cid) ∧
    db.sensor_data.Chain' tsLe ∧
    (∀ r ∈ db.sensor_data, r.timestamp ≤ db.clock) := by
  obtain ⟨hchain, hclock, -⟩ := reachable_wf hreach
  exact ⟨List.sorted_insertionSort tsLe _, hchain, hclock⟩

/-- Witness for C6 on a concrete reachable database. -/
theorem C6_timestamps_witness :
    List.Sorted tsLe (fetch_data (insert_data (create_channel ⟨[], [], 0⟩ ("c1") ("n")
        ["t", "h"]).1 ("c1") [(("t"), ("22"))]).1 (some ("c1"))) ∧
    (insert_data (create_channel ⟨[], [], 0⟩ ("c1") ("n")
        ["t", "h"]).1 ("c1") [(("t"), ("22"))]).1.sensor_data.Chain' tsLe ∧
    (∀ r ∈ (insert_data (create_channel ⟨[], [], 0⟩ ("c1") ("n")
        ["t", "h"]).1 ("c1") [(("t"), ("22"))]).1.sensor_data,
      r.timestamp ≤ (insert_data (create_channel ⟨[], [], 0⟩ ("c1") ("n")
        ["t", "h"]).1 ("c1") [(("t"), ("22"))]).1.clock) :=
  C6_timestamps_ordered _
    (Reachable.step (Reachable.step (Reachable.base 0) (Step.create _ _ _ _))
      (Step.insert _ _ _)) (some ("c1"))

/-- C7: for a channelId absent from the registry, `insert_data` fails with the
NotFound message and no storage side effect, while the read side
(`api_get_data`, for the non-empty path parameter of the route) returns an
empty result set rather than an error. -/
theorem C7_unknown_channel_asymmetry (db : DB) (cid : String)
    (data : List (String × String)) (hreach : Reachable db) (hcid : cid ≠ "")
    (habs : ∀ c ∈ db.channels, c.channelId ≠ cid) :
    insert_data db cid data = (db, false, "Channel does not exist") ∧
    api_get_data db cid = [] := by
  have hfind : db.channels.find? (fun c => c.channelId == cid) = none := by
    rw [List.find?_eq_none]
    intro c hc
    simpa using habs c hc
  constructor
  · simp [insert_data, hfind]
  · obtain ⟨-, -, href⟩ := reachable_wf hreach
    have hfil : db.sensor_data.filter (fun r => r.channelId == cid) = [] := by
      rw [List.filter_eq_nil_iff]
      intro r hr
      obtain ⟨c, hc, hcc⟩ := href r hr
      simp only [beq_iff_eq]
      exact fun h => habs c hc (hcc.trans h)
    have hbeq : (cid == "") = false := by simpa using hcid
    simp [api_get_data, fetch_data, hbeq, hfil]

/-- Witness for C7 on a concrete reachable database. -/
theorem C7_unknown_channel_witness :
    insert_data (create_channel ⟨[], [], 0⟩ ("c1") ("n") ["t"]).1 ("c2")
        [(("t"), ("22"))] =
      ((create_channel ⟨[], [], 0⟩ ("c1") ("n") ["t"]).1, false,
        "Channel does not exist") ∧
    api_get_data (create_channel ⟨[], [], 0⟩ ("c1") ("n") ["t"]).1 ("c2") = [] :=
  C7_unknown_channel_asymmetry _ ("c2") [(("t"), ("22"))]
    (Reachable.step (Reachable.base 0) (Step.create _ _ _ _)) (by decide) (by decide)

end IotGateway
